import Mathlib

/-!
Shallow embedding of the `dynamodb-stream-pipe` core: the attribute-value
tagged-union encoder, the stream-record transformation, and the shard
polling loop, together with theorems settling the specification claims.
-/

namespace DynamoStreamPipe

/-- Wire attribute value (`dynamodb.AttributeValue` from the AWS SDK): a
struct with ten optional fields `B, BOOL, BS, L, M, N, NS, NULL, S, SS`
(declared in this order in the Go struct).  A `[]byte` blob is modelled as
`List Nat`, a Go `nil` slice/map/pointer as `none`, and the `L` / `M`
fields recursively contain attribute values (a Go map is modelled as an
association list). -/
inductive DDBAttributeValue : Type where
  | mk
      (B : Option (List Nat))
      (BOOL : Option Bool)
      (BS : Option (List (List Nat)))
      (L : Option (List DDBAttributeValue))
      (M : Option (List (String × DDBAttributeValue)))
      (N : Option String)
      (NS : Option (List String))
      (NULL : Option Bool)
      (S : Option String)
      (SS : Option (List String))
  deriving Repr

/-- The encoder's output (a Go interface value holding one of the ten
single-variant structs `AttributeValueB`, `AttributeValueBOOL`, ...,
`AttributeValueM` from `record.go`): exactly one tag/value pair per
value.  A Go `nil` element produced by the encoder is modelled by the
surrounding `Option`. -/
inductive EncodedAttributeValue : Type where
  | avB (B : List Nat)
  | avBOOL (BOOL : Bool)
  | avBS (BS : List (List Nat))
  | avN (N : String)
  | avNS (NS : List String)
  | avNULL (NULL : Bool)
  | avS (S : String)
  | avSS (SS : List String)
  | avL (L : List (Option EncodedAttributeValue))
  | avM (M : List (String × Option EncodedAttributeValue))
  deriving Repr

mutual

/-- `NewAttributeValue` from `record.go`: checks the ten fields in the
fixed order `B, BOOL, BS, N, NS, NULL, S, SS, L, M` and returns the
single-variant struct of the first populated field, recursing through
`NewAttributeValueList` / `NewAttributeValueMap` for `L` / `M`; when no
field is populated it returns Go `nil`, modelled as `none`. -/
def NewAttributeValue : DDBAttributeValue → Option EncodedAttributeValue
  | .mk B BOOL BS L M N NS NULL S SS =>
    match B with
    | some x => some (.avB x)
    | none =>
      match BOOL with
      | some x => some (.avBOOL x)
      | none =>
        match BS with
        | some x => some (.avBS x)
        | none =>
          match N with
          | some x => some (.avN x)
          | none =>
            match NS with
            | some x => some (.avNS x)
            | none =>
              match NULL with
              | some x => some (.avNULL x)
              | none =>
                match S with
                | some x => some (.avS x)
                | none =>
                  match SS with
                  | some x => some (.avSS x)
                  | none =>
                    match L with
                    | some xs => some (.avL (NewAttributeValueList xs))
                    | none =>
                      match M with
                      | some kvs => some (.avM (NewAttributeValueMap kvs))
                      | none => none

/-- `NewAttributeValueList` from `record.go`: encodes every member of a
list of attribute values. -/
def NewAttributeValueList : List DDBAttributeValue → List (Option EncodedAttributeValue)
  | [] => []
  | a :: rest => NewAttributeValue a :: NewAttributeValueList rest

/-- `NewAttributeValueMap` from `record.go`: encodes every entry of a map
of attribute values, keeping the keys. -/
def NewAttributeValueMap :
    List (String × DDBAttributeValue) → List (String × Option EncodedAttributeValue)
  | [] => []
  | (k, v) :: rest => (k, NewAttributeValue v) :: NewAttributeValueMap rest

end

/-- `dynamodbstreams.Identity` (forwarded untouched): `PrincipalId` and
`Type`, both optional strings. -/
structure Identity : Type where
  principalId : Option String
  typ : Option String
  deriving Repr, DecidableEq

/-- Wire stream-record body (`dynamodbstreams.StreamRecord`): the
`ApproximateCreationDateTime` field is a `*time.Time`, modelled by the
optional integer its `Unix()` method would return; the three attribute
maps are association lists (a Go `nil` map ranges and measures like the
empty one, so both are `[]`). -/
structure WireStreamRecord : Type where
  approximateCreationDateTime : Option Int
  keys : List (String × DDBAttributeValue)
  newImage : List (String × DDBAttributeValue)
  oldImage : List (String × DDBAttributeValue)
  sequenceNumber : Option String
  sizeBytes : Option Int
  streamViewType : Option String
  deriving Repr

/-- Output stream-record body (`StreamRecord` in `record.go`): same
scalar fields, attribute maps already encoded (entries may be Go `nil`,
i.e. `none`). -/
structure StreamRecord : Type where
  approximateCreationDateTime : Option Int
  keys : List (String × Option EncodedAttributeValue)
  newImage : List (String × Option EncodedAttributeValue)
  oldImage : List (String × Option EncodedAttributeValue)
  sequenceNumber : Option String
  sizeBytes : Option Int
  streamViewType : Option String
  deriving Repr

/-- `NewStreamRecord` from `record.go`.  The Go code dereferences
`r.ApproximateCreationDateTime` unconditionally
(`r.ApproximateCreationDateTime.Unix()`); a `nil` timestamp panics, which
the embedding models as `none`.  Note that the result's `StreamViewType`
is never assigned: it stays at its zero value `nil`. -/
def NewStreamRecord (r : WireStreamRecord) : Option StreamRecord :=
  match r.approximateCreationDateTime with
  | none => none
  | some t =>
      some
        { approximateCreationDateTime := some t
          keys := NewAttributeValueMap r.keys
          newImage := NewAttributeValueMap r.newImage
          oldImage := NewAttributeValueMap r.oldImage
          sequenceNumber := r.sequenceNumber
          sizeBytes := r.sizeBytes
          streamViewType := none }

/-- Wire record (`dynamodbstreams.Record`): it has no event-source-ARN
field. -/
structure WireRecord : Type where
  awsRegion : Option String
  dynamodb : Option WireStreamRecord
  eventID : Option String
  eventName : Option String
  eventSource : Option String
  eventVersion : Option String
  userIdentity : Option Identity
  deriving Repr

/-- Output record (`Record` in `record.go`): adds the `EventSourceArn`
field, which the wire record does not carry. -/
structure Record : Type where
  awsRegion : Option String
  dynamodb : Option StreamRecord
  eventID : Option String
  eventName : Option String
  eventSource : Option String
  eventVersion : Option String
  eventSourceArn : Option String
  userIdentity : Option Identity
  deriving Repr

/-- `NewRecord` from `record.go`: copies each field, building the body
with `NewStreamRecord`.  `NewStreamRecord(r.Dynamodb)` dereferences the
body pointer, so a `nil` body panics (`none` here); `EventSourceArn` is
left at its zero value `nil`. -/
def NewRecord (r : WireRecord) : Option Record :=
  match r.dynamodb with
  | none => none
  | some d =>
      match NewStreamRecord d with
      | none => none
      | some sd =>
          some
            { awsRegion := r.awsRegion
              dynamodb := some sd
              eventID := r.eventID
              eventName := r.eventName
              eventSource := r.eventSource
              eventVersion := r.eventVersion
              eventSourceArn := none
              userIdentity := r.userIdentity }

/-- The per-record transformation performed inside `App.Run`
(`pipe.go`): `nr := NewRecord(r)` followed by
`nr.EventSourceArn = dto.Table.LatestStreamArn`. -/
def transform (streamId : String) (r : WireRecord) : Option Record :=
  (NewRecord r).map (fun nr => { nr with eventSourceArn := some streamId })

/-- The single-key envelope (`DynamoDBEvent` with its `Records` list)
built in `App.Run` for each record. -/
structure DynamoDBEvent : Type where
  records : List Record
  deriving Repr

/-- The top-level JSON keys `encoding/json` emits for the output
`StreamRecord` struct, in struct-field order: `Keys`, `NewImage` and
`OldImage` carry `json:",omitempty"` and are dropped when the map is
empty; the remaining fields have no `omitempty` and are always present
(as `null` when the pointer is `nil`). -/
def StreamRecord.jsonKeys (s : StreamRecord) : List String :=
  ["ApproximateCreationDateTime"] ++
    (if s.keys.isEmpty then [] else ["Keys"]) ++
    (if s.newImage.isEmpty then [] else ["NewImage"]) ++
    (if s.oldImage.isEmpty then [] else ["OldImage"]) ++
    ["SequenceNumber", "SizeBytes", "StreamViewType"]

/-- How a run of `App.Run` (or one of its phases) ends: a normal return,
a returned (wrapped) error, or a Go runtime panic (nil dereference /
index out of range), which is not an error value of the program's
taxonomy.  `hung` is a modelling artifact: the loop wanted one more
poll response than the supplied finite trace contains. -/
inductive RunOutcome : Type where
  | ok
  | error (msg : String)
  | crash
  | hung
  deriving Repr, DecidableEq

/-- One `GetRecords` call as observed by the loop: either the SDK call
errors, or it yields a batch of raw records plus the
`NextShardIterator` pointer (absent = Go `nil`). -/
inductive PollResult : Type where
  | failure
  | success (records : List WireRecord) (nextShardIterator : Option String)
  deriving Repr

/-- Result of the inner per-record loop of `App.Run`: either every
record of the batch was transformed and dispatched (`done`), or the loop
aborted (`aborted`).  Both constructors carry the list of records that
were actually handed to the sink process, in order. -/
inductive BatchResult : Type where
  | done (dispatched : List WireRecord)
  | aborted (outcome : RunOutcome) (dispatched : List WireRecord)
  deriving Repr

/-- Whether the whole batch was processed. -/
def BatchResult.isDone : BatchResult → Bool
  | .done _ => true
  | .aborted _ _ => false

/-- The inner `for _, r := range gro.Records` loop of `App.Run`: each
record is transformed by `NewRecord` (a malformed record panics there,
aborting with `crash`), its envelope is marshalled and written to a
fresh sink process; `cmd.CombinedOutput()` returning an error makes the
run return `errors.Wrap(err, "failed cmd")` at once.  The sink's
success or failure on a given record is abstracted by the oracle
`dispatch`. -/
def processRecords (dispatch : WireRecord → Bool) :
    List WireRecord → BatchResult
  | [] => .done []
  | r :: rest =>
      match NewRecord r with
      | none => .aborted .crash []
      | some _ =>
          if dispatch r then
            match processRecords dispatch rest with
            | .done ds => .done (r :: ds)
            | .aborted o ds => .aborted o (r :: ds)
          else .aborted (.error "failed cmd") [r]

/-- The outer `for` loop of `App.Run`, driven by the sequence of
`GetRecords` responses the stream endpoint will return (one `PollResult`
per call, consumed in order).  Returns the outcome together with the
number of `GetRecords` calls issued.  Faithful to `pipe.go`: a poll
error returns `failed get records`; otherwise `itr = gro.NextShardIterator`,
the batch is processed, and then `*itr` is compared against the empty
string (so `break`) — dereferencing a `nil` next iterator panics
(`crash`), the empty string ends the loop normally, anything else polls
again. -/
def runLoop (dispatch : WireRecord → Bool) :
    List PollResult → RunOutcome × Nat
  | [] => (.hung, 0)
  | .failure :: _ => (.error "failed get records", 1)
  | .success recs next :: rest =>
      match processRecords dispatch recs with
      | .aborted o _ => (o, 1)
      | .done _ =>
          match next with
          | none => (.crash, 1)
          | some s =>
              if s = "" then (.ok, 1)
              else
                let p := runLoop dispatch rest
                (p.1, p.2 + 1)

/-- `dynamodb.TableDescription` restricted to the field `App.Run`
reads: the `LatestStreamArn` pointer. -/
structure TableDescription : Type where
  latestStreamArn : Option String
  deriving Repr, DecidableEq

/-- One shard of `dynamodbstreams.StreamDescription.Shards`: only its
`ShardId` pointer is read. -/
structure Shard : Type where
  shardId : Option String
  deriving Repr, DecidableEq

/-- The `GetShardIterator` request `App.Run` builds: shard id, stream
ARN and iterator type. -/
structure GetShardIteratorRequest : Type where
  shardId : Option String
  streamArn : String
  shardIteratorType : String
  deriving Repr, DecidableEq

/-- Result of the acquisition phase of `App.Run` (describe-table,
stream-ARN check, describe-stream, shard selection): either an early
return with an error, a panic, or the `GetShardIterator` request that is
issued. -/
inductive AcquireResult : Type where
  | error (msg : String)
  | crash
  | request (req : GetShardIteratorRequest)
  deriving Repr, DecidableEq

/-- The acquisition phase of `App.Run` (`pipe.go` up to
`GetShardIterator`), driven by the outcome of the `DescribeTable` call
and of the `DescribeStream` call (its shard listing).  Faithful to the
source: `*dto.Table.LatestStreamArn == ""` dereferences the ARN pointer
(panic when `nil`); the shard is
`Shards[len(Shards)-1]` — an empty listing panics with an
out-of-range index; the iterator type is always the SDK constant
`ShardIteratorTypeTrimHorizon = "TRIM_HORIZON"`. -/
def acquire (describeTable : Except Unit TableDescription)
    (describeStream : Except Unit (List Shard)) : AcquireResult :=
  match describeTable with
  | .error _ => .error "failed describe table"
  | .ok dto =>
      match dto.latestStreamArn with
      | none => .crash
      | some arn =>
          if arn = "" then .error "disable dynamodb streams"
          else
            match describeStream with
            | .error _ => .error "failed describe stream"
            | .ok shards =>
                match shards.getLast? with
                | none => .crash
                | some sh =>
                    .request
                      { shardId := sh.shardId
                        streamArn := arn
                        shardIteratorType := "TRIM_HORIZON" }

/-- The malformed wire attribute value: none of the ten variant fields
is populated. -/
def emptyAttributeValue : DDBAttributeValue :=
  .mk none none none none none none none none none none

/-- A concrete well-formed wire stream-record body, used to instantiate
theorems on concrete inputs. -/
def sampleBody : WireStreamRecord :=
  { approximateCreationDateTime := some 1500000000
    keys := [("Id", .mk none none none none none (some "101") none none none none)]
    newImage := []
    oldImage := []
    sequenceNumber := some "300000000000000499659"
    sizeBytes := some 26
    streamViewType := some "KEYS_ONLY" }

/-- A concrete well-formed wire record wrapping `sampleBody`. -/
def sampleRecord : WireRecord :=
  { awsRegion := some "ap-northeast-1"
    dynamodb := some sampleBody
    eventID := some "event-1"
    eventName := some "INSERT"
    eventSource := some "aws:dynamodb"
    eventVersion := some "1.1"
    userIdentity := none }

/-- A poll-response trace of the shape claimed by the loop-termination
property: every batch transforms and dispatches completely, each
response but the last carries a present non-empty `NextShardIterator`,
and the last response carries the empty ("absent") token that ends the
loop. -/
inductive DrainingTrace (dispatch : WireRecord → Bool) : List PollResult → Prop where
  | last (recs : List WireRecord)
      (h : (processRecords dispatch recs).isDone = true) :
      DrainingTrace dispatch [.success recs (some "")]
  | step (recs : List WireRecord) (t : String) (rest : List PollResult)
      (ht : t ≠ "")
      (h : (processRecords dispatch recs).isDone = true)
      (htail : DrainingTrace dispatch rest) :
      DrainingTrace dispatch (.success recs (some t) :: rest)

/-- The list encoder is the map of the value encoder. -/
theorem newAttributeValueList_eq_map (xs : List DDBAttributeValue) :
    NewAttributeValueList xs = xs.map NewAttributeValue := by
  induction xs with
  | nil => rfl
  | cons a rest ih => simp [NewAttributeValueList, ih]

/-- The map encoder is the keywise map of the value encoder. -/
theorem newAttributeValueMap_eq_map (kvs : List (String × DDBAttributeValue)) :
    NewAttributeValueMap kvs = kvs.map (fun kv => (kv.1, NewAttributeValue kv.2)) := by
  induction kvs with
  | nil => rfl
  | cons kv rest ih =>
      obtain ⟨k, v⟩ := kv
      simp [NewAttributeValueMap, ih]

/-- The map encoder preserves emptiness of the attribute map. -/
theorem newAttributeValueMap_isEmpty (kvs : List (String × DDBAttributeValue)) :
    (NewAttributeValueMap kvs).isEmpty = kvs.isEmpty := by
  rw [newAttributeValueMap_eq_map]
  cases kvs <;> simp

/-- C1: for every wire attribute value whose single populated variant is
B, BOOL, BS, N, NS, NULL, S, SS, L or M respectively (every other field
absent), `NewAttributeValue` produces exactly the single-variant
structure of that variant carrying its value and nothing else, and for
the list and map variants it applies the same encoder recursively to
every member (hence to arbitrary nesting depth). -/
theorem newAttributeValue_single_variant :
    (∀ x, NewAttributeValue (.mk (some x) none none none none none none none none none) =
      some (.avB x)) ∧
    (∀ x, NewAttributeValue (.mk none (some x) none none none none none none none none) =
      some (.avBOOL x)) ∧
    (∀ x, NewAttributeValue (.mk none none (some x) none none none none none none none) =
      some (.avBS x)) ∧
    (∀ x, NewAttributeValue (.mk none none none none none (some x) none none none none) =
      some (.avN x)) ∧
    (∀ x, NewAttributeValue (.mk none none none none none none (some x) none none none) =
      some (.avNS x)) ∧
    (∀ x, NewAttributeValue (.mk none none none none none none none (some x) none none) =
      some (.avNULL x)) ∧
    (∀ x, NewAttributeValue (.mk none none none none none none none none (some x) none) =
      some (.avS x)) ∧
    (∀ x, NewAttributeValue (.mk none none none none none none none none none (some x)) =
      some (.avSS x)) ∧
    (∀ xs, NewAttributeValue (.mk none none none (some xs) none none none none none none) =
      some (.avL (xs.map NewAttributeValue))) ∧
    (∀ kvs, NewAttributeValue (.mk none none none none (some kvs) none none none none none) =
      some (.avM (kvs.map (fun kv => (kv.1, NewAttributeValue kv.2))))) := by
  refine ⟨?_, ?_, ?_, ?_, ?_, ?_, ?_, ?_, ?_, ?_⟩ <;>
    intro x <;>
    simp [NewAttributeValue, newAttributeValueList_eq_map, newAttributeValueMap_eq_map]

/-- C10: when several variant fields are populated, `NewAttributeValue`
returns the single-variant structure of the first populated field in the
fixed check order B, BOOL, BS, N, NS, NULL, S, SS, L, M (list and map
last): each conjunct fixes the fields earlier in that order to absent,
populates the named field, and leaves every later field arbitrary — the
later populated fields do not appear in the output. -/
theorem newAttributeValue_first_populated_wins :
    (∀ x BOOL BS L M N NS NULL S SS,
      NewAttributeValue (.mk (some x) BOOL BS L M N NS NULL S SS) = some (.avB x)) ∧
    (∀ x BS L M N NS NULL S SS,
      NewAttributeValue (.mk none (some x) BS L M N NS NULL S SS) = some (.avBOOL x)) ∧
    (∀ x L M N NS NULL S SS,
      NewAttributeValue (.mk none none (some x) L M N NS NULL S SS) = some (.avBS x)) ∧
    (∀ x L M NS NULL S SS,
      NewAttributeValue (.mk none none none L M (some x) NS NULL S SS) = some (.avN x)) ∧
    (∀ x L M NULL S SS,
      NewAttributeValue (.mk none none none L M none (some x) NULL S SS) = some (.avNS x)) ∧
    (∀ x L M S SS,
      NewAttributeValue (.mk none none none L M none none (some x) S SS) = some (.avNULL x)) ∧
    (∀ x L M SS,
      NewAttributeValue (.mk none none none L M none none none (some x) SS) = some (.avS x)) ∧
    (∀ x L M,
      NewAttributeValue (.mk none none none L M none none none none (some x)) = some (.avSS x)) ∧
    (∀ xs M,
      NewAttributeValue (.mk none none none (some xs) M none none none none none) =
        some (.avL (NewAttributeValueList xs))) ∧
    (∀ kvs,
      NewAttributeValue (.mk none none none none (some kvs) none none none none none) =
        some (.avM (NewAttributeValueMap kvs))) := by
  refine ⟨?_, ?_, ?_, ?_, ?_, ?_, ?_, ?_, ?_, ?_⟩ <;>
    intro x <;>
    simp [NewAttributeValue]

/-- C7: a wire attribute value with no populated variant does not make
the encoder fail: `NewAttributeValue` returns Go `nil` (`none`), and a
record whose key map contains such an attribute still transforms — the
body is produced and the malformed entry is carried as an absent/null
value. -/
theorem malformed_attribute_degrades (k : String) (t : Int) (r : WireStreamRecord)
    (hacdt : r.approximateCreationDateTime = some t)
    (hkeys : (k, emptyAttributeValue) ∈ r.keys) :
    NewAttributeValue emptyAttributeValue = none ∧
    ∃ out, NewStreamRecord r = some out ∧ (k, none) ∈ out.keys := by
  refine ⟨rfl, ?_⟩
  refine
    ⟨{ approximateCreationDateTime := some t
       keys := NewAttributeValueMap r.keys
       newImage := NewAttributeValueMap r.newImage
       oldImage := NewAttributeValueMap r.oldImage
       sequenceNumber := r.sequenceNumber
       sizeBytes := r.sizeBytes
       streamViewType := none }, ?_, ?_⟩
  · simp [NewStreamRecord, hacdt]
  · show (k, none) ∈ NewAttributeValueMap r.keys
    rw [newAttributeValueMap_eq_map]
    exact List.mem_map_of_mem (fun kv => (kv.1, NewAttributeValue kv.2)) hkeys

/-- Witness for C7 at a concrete record: the malformed attribute encodes
to `none` and the record still transforms. -/
theorem malformed_attribute_degrades_witness :
    NewAttributeValue emptyAttributeValue = none ∧
    ∃ out,
      NewStreamRecord { sampleBody with keys := [("bad", emptyAttributeValue)] } = some out ∧
      ("bad", none) ∈ out.keys :=
  malformed_attribute_degrades "bad" 1500000000
    { sampleBody with keys := [("bad", emptyAttributeValue)] } rfl (by simp [sampleBody])

/-- C2 counterexample: on a wire body whose view-type tag is
`NEW_AND_OLD_IMAGES`, the transformed body's `StreamViewType` is absent
— `NewStreamRecord` does not map the view-type tag 1:1 (it never
assigns it). -/
theorem newStreamRecord_drops_view_type_cex :
    ({ sampleBody with streamViewType := some "NEW_AND_OLD_IMAGES"} :
        WireStreamRecord).streamViewType = some "NEW_AND_OLD_IMAGES" ∧
    (NewStreamRecord { sampleBody with streamViewType := some "NEW_AND_OLD_IMAGES" }).map
        StreamRecord.streamViewType = some none ∧
    (NewStreamRecord { sampleBody with streamViewType := some "NEW_AND_OLD_IMAGES" }).map
        StreamRecord.streamViewType ≠
      some ({ sampleBody with streamViewType := some "NEW_AND_OLD_IMAGES" } :
        WireStreamRecord).streamViewType := by
  refine ⟨rfl, rfl, ?_⟩
  decide

/-- C2 amended: for every raw record carrying a body and a creation
timestamp, `transform` (i.e. `NewRecord`/`NewStreamRecord` plus the
`streamId` injection of `App.Run`) maps every field of the raw record
1:1 into the output record and sets `eventSourceArn` to the injected
stream id — except the view-type tag, which is never copied: the
output's `StreamViewType` is always absent. -/
theorem transform_maps_fields (sid : String) (w : WireRecord) (d : WireStreamRecord)
    (t : Int) (hd : w.dynamodb = some d)
    (ht : d.approximateCreationDateTime = some t) :
    transform sid w =
      some
        { awsRegion := w.awsRegion
          dynamodb :=
            some
              { approximateCreationDateTime := some t
                keys := NewAttributeValueMap d.keys
                newImage := NewAttributeValueMap d.newImage
                oldImage := NewAttributeValueMap d.oldImage
                sequenceNumber := d.sequenceNumber
                sizeBytes := d.sizeBytes
                streamViewType := none }
          eventID := w.eventID
          eventName := w.eventName
          eventSource := w.eventSource
          eventVersion := w.eventVersion
          eventSourceArn := some sid
          userIdentity := w.userIdentity } := by
  simp [transform, NewRecord, NewStreamRecord, hd, ht]

/-- Witness for the amended C2 at a concrete record and stream id. -/
theorem transform_maps_fields_witness :
    transform "arn:aws:dynamodb:stream-1" sampleRecord =
      some
        { awsRegion := sampleRecord.awsRegion
          dynamodb :=
            some
              { approximateCreationDateTime := some 1500000000
                keys := NewAttributeValueMap sampleBody.keys
                newImage := NewAttributeValueMap sampleBody.newImage
                oldImage := NewAttributeValueMap sampleBody.oldImage
                sequenceNumber := sampleBody.sequenceNumber
                sizeBytes := sampleBody.sizeBytes
                streamViewType := none }
          eventID := sampleRecord.eventID
          eventName := sampleRecord.eventName
          eventSource := sampleRecord.eventSource
          eventVersion := sampleRecord.eventVersion
          eventSourceArn := some "arn:aws:dynamodb:stream-1"
          userIdentity := sampleRecord.userIdentity } :=
  transform_maps_fields "arn:aws:dynamodb:stream-1" sampleRecord sampleBody 1500000000
    rfl rfl

/-- C3 counterexample: a wire body with view-type `KEYS_ONLY`, no
before- or after-image, but an empty key map serializes with no `Keys`
key at all (the `json:",omitempty"` tag also drops an empty `Keys`
map), so the claim as universally stated fails. -/
theorem keys_only_empty_keys_cex :
    ({ sampleBody with keys := [] } : WireStreamRecord).streamViewType =
        some "KEYS_ONLY" ∧
    ({ sampleBody with keys := [] } : WireStreamRecord).newImage = [] ∧
    ({ sampleBody with keys := [] } : WireStreamRecord).oldImage = [] ∧
    (NewStreamRecord { sampleBody with keys := [] }).map StreamRecord.jsonKeys =
      some ["ApproximateCreationDateTime", "SequenceNumber", "SizeBytes",
        "StreamViewType"] := by
  refine ⟨rfl, rfl, rfl, rfl⟩

/-- C3 amended: for every wire body with view-type `KEYS_ONLY` and no
before- or after-image, provided it carries a creation timestamp (else
the transform panics, claim C9) and its key map is non-empty (as a
KEYS_ONLY record's always is in practice), the serialized body contains
a `Keys` key and omits the `NewImage` and `OldImage` keys entirely —
they are absent, not null. -/
theorem keys_only_serialization (r : WireStreamRecord) (t : Int)
    (_hview : r.streamViewType = some "KEYS_ONLY")
    (hnew : r.newImage = []) (hold : r.oldImage = [])
    (hkeys : r.keys ≠ []) (ht : r.approximateCreationDateTime = some t) :
    ∃ out, NewStreamRecord r = some out ∧
      "Keys" ∈ out.jsonKeys ∧
      "NewImage" ∉ out.jsonKeys ∧ "OldImage" ∉ out.jsonKeys := by
  refine
    ⟨{ approximateCreationDateTime := some t
       keys := NewAttributeValueMap r.keys
       newImage := NewAttributeValueMap r.newImage
       oldImage := NewAttributeValueMap r.oldImage
       sequenceNumber := r.sequenceNumber
       sizeBytes := r.sizeBytes
       streamViewType := none }, ?_, ?_, ?_, ?_⟩
  · simp [NewStreamRecord, ht]
  · have hke : (NewAttributeValueMap r.keys).isEmpty = false := by
      rw [newAttributeValueMap_isEmpty]
      cases hk : r.keys with
      | nil => exact absurd hk hkeys
      | cons a l => simp
    simp [StreamRecord.jsonKeys, hke]
  · simp [StreamRecord.jsonKeys, hnew, NewAttributeValueMap]
  · simp [StreamRecord.jsonKeys, hold, NewAttributeValueMap]

/-- Witness for the amended C3 at a concrete KEYS_ONLY record. -/
theorem keys_only_serialization_witness :
    ∃ out, NewStreamRecord sampleBody = some out ∧
      "Keys" ∈ out.jsonKeys ∧
      "NewImage" ∉ out.jsonKeys ∧ "OldImage" ∉ out.jsonKeys :=
  keys_only_serialization sampleBody 1500000000 rfl rfl rfl (by simp [sampleBody]) rfl

/-- C9: `NewStreamRecord` converts the creation timestamp by an
unconditional dereference, so the transform is total only when the
timestamp is present: a missing timestamp panics (modelled `none`),
aborting the whole run with a crash — not an error value — before any
dispatch, while a present timestamp always yields a transformed body. -/
theorem newStreamRecord_requires_timestamp :
    (∀ r : WireStreamRecord, r.approximateCreationDateTime = none →
      NewStreamRecord r = none) ∧
    (∀ (r : WireStreamRecord) (t : Int), r.approximateCreationDateTime = some t →
      ∃ out, NewStreamRecord r = some out) ∧
    (∀ (w : WireRecord) (d : WireStreamRecord) (rest : List WireRecord)
        (dispatch : WireRecord → Bool), w.dynamodb = some d →
      d.approximateCreationDateTime = none →
      processRecords dispatch (w :: rest) = .aborted .crash []) := by
  refine ⟨?_, ?_, ?_⟩
  · intro r h
    simp [NewStreamRecord, h]
  · intro r t h
    refine
      ⟨{ approximateCreationDateTime := some t
         keys := NewAttributeValueMap r.keys
         newImage := NewAttributeValueMap r.newImage
         oldImage := NewAttributeValueMap r.oldImage
         sequenceNumber := r.sequenceNumber
         sizeBytes := r.sizeBytes
         streamViewType := none }, ?_⟩
    simp [NewStreamRecord, h]
  · intro w d rest dispatch hd hnone
    simp [processRecords, NewRecord, NewStreamRecord, hd, hnone]

/-- Witness for C9: a concrete record lacking the creation timestamp is
rejected by `NewStreamRecord` and crashes the batch. -/
theorem newStreamRecord_requires_timestamp_witness :
    NewStreamRecord { sampleBody with approximateCreationDateTime := none } = none ∧
    (∃ out, NewStreamRecord sampleBody = some out) ∧
    processRecords (fun _ => true)
        [{ sampleRecord with
            dynamodb := some { sampleBody with approximateCreationDateTime := none } }] =
      .aborted .crash [] :=
  ⟨newStreamRecord_requires_timestamp.1
      { sampleBody with approximateCreationDateTime := none } rfl,
    newStreamRecord_requires_timestamp.2.1 sampleBody 1500000000 rfl,
    newStreamRecord_requires_timestamp.2.2
      { sampleRecord with
          dynamodb := some { sampleBody with approximateCreationDateTime := none } }
      { sampleBody with approximateCreationDateTime := none } [] (fun _ => true) rfl rfl⟩

/-- C4: on any poll-response trace whose first N-1 responses carry a
present non-empty next token, whose Nth (last) response carries the
absent (empty) next token, and whose batches — of any size, including
zero and including the last one's — all transform and dispatch
completely, the loop of `App.Run` issues exactly N `GetRecords` calls
and terminates normally. -/
theorem run_loop_exact_poll_count (dispatch : WireRecord → Bool)
    (responses : List PollResult) (htrace : DrainingTrace dispatch responses) :
    runLoop dispatch responses = (.ok, responses.length) := by
  induction htrace with
  | last recs h =>
      cases hpd : processRecords dispatch recs with
      | done ds => simp [runLoop, hpd]
      | aborted o ds => rw [hpd] at h; simp [BatchResult.isDone] at h
  | step recs t rest ht h htail ih =>
      cases hpd : processRecords dispatch recs with
      | done ds => simp [runLoop, hpd, ht, ih]
      | aborted o ds => rw [hpd] at h; simp [BatchResult.isDone] at h

/-- Witness for C4: a two-response trace (a one-record batch with a
present token, then an empty batch with the empty token) makes the loop
poll exactly twice and finish normally. -/
theorem run_loop_exact_poll_count_witness :
    runLoop (fun _ => true)
        [.success [sampleRecord] (some "token-2"), .success [] (some "")] =
      (.ok, 2) :=
  run_loop_exact_poll_count (fun _ => true)
    [.success [sampleRecord] (some "token-2"), .success [] (some "")]
    (.step [sampleRecord] "token-2" [.success [] (some "")] (by decide) rfl
      (.last [] rfl))

/-- C5: if, within a batch, every record before some failing record
transforms and dispatches successfully and that record's sink dispatch
fails, the run returns the `failed cmd` error at once: the sink was
invoked exactly on the earlier records and the failing one, no later
record of the batch is transformed or dispatched, and the polling loop
stops with that error after the single poll that delivered the batch. -/
theorem dispatch_failure_aborts (dispatch : WireRecord → Bool)
    (pre post : List WireRecord) (bad : WireRecord)
    (hpre : ∀ r ∈ pre, (NewRecord r).isSome = true ∧ dispatch r = true)
    (hbadT : (NewRecord bad).isSome = true) (hbadD : dispatch bad = false)
    (next : Option String) (rest : List PollResult) :
    processRecords dispatch (pre ++ bad :: post) =
      .aborted (.error "failed cmd") (pre ++ [bad]) ∧
    runLoop dispatch (.success (pre ++ bad :: post) next :: rest) =
      (.error "failed cmd", 1) := by
  have hbatch : processRecords dispatch (pre ++ bad :: post) =
      .aborted (.error "failed cmd") (pre ++ [bad]) := by
    induction pre with
    | nil =>
        cases hnb : NewRecord bad with
        | none => rw [hnb] at hbadT; simp at hbadT
        | some v => simp [processRecords, hnb, hbadD]
    | cons r pre ih =>
        obtain ⟨hT, hD⟩ := hpre r (by simp)
        cases hnr : NewRecord r with
        | none => rw [hnr] at hT; simp at hT
        | some v =>
            have := ih (fun q hq => hpre q (by simp [hq]))
            simp [processRecords, hnr, hD, this]
  refine ⟨hbatch, ?_⟩
  simp [runLoop, hbatch]

/-- Witness for C5: with a sink that always fails, a one-record batch
aborts with `failed cmd` after the single dispatch attempt, and the loop
stops after one poll. -/
theorem dispatch_failure_aborts_witness :
    processRecords (fun _ => false) ([] ++ sampleRecord :: []) =
      .aborted (.error "failed cmd") ([] ++ [sampleRecord]) ∧
    runLoop (fun _ => false)
        (.success ([] ++ sampleRecord :: []) (some "token-2") :: []) =
      (.error "failed cmd", 1) :=
  dispatch_failure_aborts (fun _ => false) [] [] sampleRecord (by simp) rfl rfl
    (some "token-2") []

/-- C6: whenever describe-table yields a present non-empty stream ARN
and describe-stream yields a non-empty shard listing, the acquisition
phase of `App.Run` issues exactly one `GetShardIterator` request: for
the last shard of the listing, with iterator type `TRIM_HORIZON` (the
oldest retained position) — no other shard and no other start
position. -/
theorem acquire_last_shard_trim_horizon (dto : TableDescription) (arn : String)
    (shards : List Shard) (sh : Shard)
    (harn : dto.latestStreamArn = some arn) (hne : arn ≠ "")
    (hlast : shards.getLast? = some sh) :
    acquire (.ok dto) (.ok shards) =
      .request
        { shardId := sh.shardId
          streamArn := arn
          shardIteratorType := "TRIM_HORIZON" } := by
  simp [acquire, harn, hne, hlast]

/-- Witness for C6 at a concrete table description and two-shard
listing: the second (last) shard is selected at trim horizon. -/
theorem acquire_last_shard_trim_horizon_witness :
    acquire (.ok { latestStreamArn := some "arn:stream-1" })
        (.ok [{ shardId := some "shard-0" }, { shardId := some "shard-1" }]) =
      .request
        { shardId := some "shard-1"
          streamArn := "arn:stream-1"
          shardIteratorType := "TRIM_HORIZON" } :=
  acquire_last_shard_trim_horizon { latestStreamArn := some "arn:stream-1" }
    "arn:stream-1" [{ shardId := some "shard-0" }, { shardId := some "shard-1" }]
    { shardId := some "shard-1" } rfl (by decide) rfl

/-- C8: with a present non-empty stream ARN but an empty shard listing,
the acquisition phase of `App.Run` indexes the listing at length-1
without a check and panics with an out-of-range access — it crashes and
returns no error of the documented taxonomy, so a non-empty listing is
an unstated precondition. -/
theorem acquire_empty_shards_crashes (dto : TableDescription) (arn : String)
    (harn : dto.latestStreamArn = some arn) (hne : arn ≠ "") :
    acquire (.ok dto) (.ok []) = .crash ∧
    ∀ msg, acquire (.ok dto) (.ok []) ≠ .error msg := by
  have h : acquire (.ok dto) (.ok []) = .crash := by
    simp [acquire, harn, hne]
  exact ⟨h, fun msg hmsg => by rw [h] at hmsg; exact AcquireResult.noConfusion hmsg⟩

/-- Witness for C8 at a concrete table description. -/
theorem acquire_empty_shards_crashes_witness :
    acquire (.ok { latestStreamArn := some "arn:stream-1" }) (.ok []) = .crash ∧
    ∀ msg, acquire (.ok { latestStreamArn := some "arn:stream-1" }) (.ok []) ≠
      .error msg :=
  acquire_empty_shards_crashes { latestStreamArn := some "arn:stream-1" }
    "arn:stream-1" rfl (by decide)

end DynamoStreamPipe
